import Mathlib

/-!
Interruptor inteligente: relay state reconciliation.

A shallow embedding of `src/ControleInterruptor.cpp` (with `src/ConfigInterruptor.h`).
The program's globals become the fields of `State`; every C++ function becomes a
function that takes the state (and whatever the outside world supplies to it: the
HTTP request being served, the outcome of the poll of the Master) and returns the
new state together with what it produced.

The compile-time flag `MESTRE` is a parameter, so that both roles can be studied.
The timer callback `desliga` runs from the SDK, outside `loop()`: it is a transition
of its own (`elapse`), interleaved with the iterations of `loop`.
-/

namespace Interruptor

/-! Constants -/

/-- The relay state ON: `#define RELE_LIGADO 1`. -/
def RELE_LIGADO : Int := 1

/-- The relay state OFF: `#define RELE_DESLIGADO 0`. -/
def RELE_DESLIGADO : Int := 0

/-- Arduino `LOW` pin level. -/
def LOW : Nat := 0

/-- Arduino `HIGH` pin level. -/
def HIGH : Nat := 1

/-- The status text for ON: `const char* STATUS_ON_STR = "ON";`. -/
def STATUS_ON_STR : String := "ON"

/-- The status text for OFF: `const char* STATUS_OFF_STR = "OFF";`. -/
def STATUS_OFF_STR : String := "OFF"

/-- The code `HTTP_CODE_OK` of the HTTP client library. -/
def HTTP_CODE_OK : Int := 200

/-! Data model -/

/-- The request currently held by the web server: its path and its query arguments,
in the order received. -/
structure Request where
  uri : String
  args : List (String × String)
  deriving DecidableEq, Repr

/-- The call `server.arg(name)`: the value of the first argument called `name`, and the empty
string when there is none. -/
def Request.arg (r : Request) (name : String) : String :=
  match r.args.find? (fun kv => kv.1 == name) with
  | some kv => kv.2
  | none => ""

/-- The call `server.hasArg(name)`: whether an argument called `name` was sent. -/
def Request.hasArg (r : Request) (name : String) : Bool :=
  r.args.any (fun kv => kv.1 == name)

/-- What `server.send(code, contentType, body)` hands to the client. -/
structure Response where
  code : Nat
  contentType : String
  body : String
  deriving DecidableEq, Repr

/-- The globals of the program and the hardware they drive.

* `relayStat`  : `int relayStat`
* `pinOutput`  : whether `relayPin` has been configured as an output
* `pinLevel`   : the level last written to `relayPin`
* `tmr0`       : the pending expiries of the software timer `tmr0`, each as the
                 number of milliseconds still to run
* `tmr0Fn`     : whether `desliga` has been installed as the callback of `tmr0`
* `serverOn`   : whether the routes are registered and the server started
* `localIP`    : `WiFi.localIP().toString()` -/
structure State where
  relayStat : Int
  pinOutput : Bool
  pinLevel : Nat
  tmr0 : List Nat
  tmr0Fn : Bool
  serverOn : Bool
  localIP : String
  deriving DecidableEq, Repr

/-- The globals as initialised at power-on, before `setup()` runs:
`relayStat = RELE_DESLIGADO`, no timer armed, the pin not yet driven. -/
def powerOn : State :=
  { relayStat := RELE_DESLIGADO, pinOutput := false, pinLevel := LOW, tmr0 := [],
    tmr0Fn := false, serverOn := false, localIP := "" }

/-- What the HTTP client observes during one poll of the Master: the result of
`http.begin(client, url)`, the value of `http.GET()`, and `http.getString()`. -/
structure Poll where
  beginOk : Bool
  httpCode : Int
  payload : String
  deriving DecidableEq, Repr

/-! The software timer -/

/-- Modelled from the spec: `os_timer_disarm`, the SDK operation that cancels the
pending expiry of `tmr0` (the SDK is not part of the sources). -/
def os_timer_disarm (_pending : List Nat) : List Nat := []

/-- Modelled from the spec: `os_timer_arm(&tmr0, ms, false)` of the SDK, which is not
part of the sources. Following the spec, arming "cancels any existing ARMED timer and
schedules a single expiry callback after `durationMs`"; the timer does not repeat. -/
def os_timer_arm (pending : List Nat) (ms : Nat) : List Nat :=
  os_timer_disarm pending ++ [ms]

/-! Endpoints -/

/-- Source `void relayControl()`, the handler of `/relay`. -/
def relayControl (req : Request) (s : State) : State × Response :=
  let message := "\x7b\"status\":\""
  let (s, message) :=
    if req.arg "do" = "on" then
      ({ s with relayStat := RELE_LIGADO }, message ++ STATUS_ON_STR ++ "\"")
    else
      ({ s with relayStat := RELE_DESLIGADO }, message ++ STATUS_OFF_STR ++ "\"")
  let message := message ++ ",\"IP\":\""
  let message := message ++ s.localIP
  let message := message ++ "\"\x7d"
  (s, { code := 200, contentType := "application/json", body := message })

/-- Source `void getStatus()`, the handler of `/getStatus`. -/
def getStatus (s : State) : State × Response :=
  if s.relayStat = RELE_DESLIGADO then
    (s, { code := 200, contentType := "text/plain", body := STATUS_OFF_STR })
  else
    (s, { code := 200, contentType := "text/plain", body := STATUS_ON_STR })

/-- Source `void sleep()`, the handler of `/sleep`. `toMillis v` stands for the value that
reaches the timer from the text `v`: `v.toDouble()` of the Arduino core, converted to
the unsigned millisecond count that `os_timer_arm` takes. -/
def sleep (toMillis : String → Nat) (req : Request) (s : State) : State × Response :=
  if req.hasArg "time" then
    let tempo := toMillis (req.arg "time")
    ({ s with tmr0 := os_timer_arm s.tmr0 tempo },
      { code := 200, contentType := "text/plain", body := "1" })
  else
    (s, { code := 200, contentType := "text/plain", body := "0" })

/-- Source `void desliga(void* z)`, the callback of `tmr0`. -/
def desliga (s : State) : State :=
  { s with relayStat := RELE_DESLIGADO }

/-- Source `void handleRoot()`. -/
def handleRoot (s : State) : State × Response :=
  (s, { code := 404, contentType := "text/plain", body := "Not Found" })

/-- Source `void handleWebRequests()`, the handler of every unmatched route. -/
def handleWebRequests (s : State) : State × Response :=
  (s, { code := 404, contentType := "text/plain", body := "Not Found" })

/-! The poll of the Master -/

/-- Source `bool getStatusMestre()`. The local `status` starts as `RELE_DESLIGADO` (`false`)
and is only assigned again when the Master answered `200`. -/
def getStatusMestre (MESTRE : Bool) (poll : Poll) (s : State) : State × Bool :=
  let status := false
  if !MESTRE then
    if poll.beginOk then
      let httpCode := poll.httpCode
      if httpCode > 0 then
        if httpCode = HTTP_CODE_OK then
          let payload := poll.payload
          if payload = STATUS_ON_STR then (s, true) else (s, false)
        else (s, status)
      else (s, status)
    else (s, status)
  else (s, status)

/-! setup and loop -/

/-- Source `void setup()`. Here `autoConnect` is the result of `wifiManager.autoConnect(...)` and
`ip` the address the station then holds. When the connection fails the device
restarts: `.error` carries the state at the moment of `ESP.restart()`. -/
def setup (autoConnect : Bool) (ip : String) (s : State) : Except State State :=
  let s := { s with pinOutput := true }
  let s := { s with pinLevel := HIGH }
  if !autoConnect then
    .error s
  else
    let s := { s with localIP := ip }
    let s := { s with serverOn := true }
    let s := { s with tmr0Fn := true }
    .ok s

/-- The state an outcome of `setup` carries, whichever way `setup` ended. -/
def stateOf (r : Except State State) : State :=
  match r with
  | .ok s => s
  | .error s => s

/-- The call `server.handleClient()`: serves the pending request, if there is one, through the
routes registered in `setup`. -/
def handleClient (toMillis : String → Nat) (req : Option Request) (s : State) :
    State × Option Response :=
  match req with
  | none => (s, none)
  | some r =>
    let (s, resp) :=
      if r.uri = "/relay" then relayControl r s
      else if r.uri = "/getStatus" then getStatus s
      else if r.uri = "/sleep" then sleep toMillis r s
      else handleWebRequests s
    (s, some resp)

/-- The mirror step of `loop()`: `if (!MESTRE) relayStat = getStatusMestre();`. -/
def mirror (MESTRE : Bool) (poll : Poll) (s : State) : State :=
  if !MESTRE then
    let (s, status) := getStatusMestre MESTRE poll s
    { s with relayStat := if status then 1 else 0 }
  else s

/-- The hardware commit of `loop()`: `relayStat` decides the level written to the pin. -/
def commit (s : State) : State :=
  if s.relayStat = RELE_DESLIGADO then
    { s with pinLevel := LOW }
  else
    { s with pinLevel := HIGH }

/-- Source `void loop()`: serve a client, mirror the Master (Slave only), commit to the pin.
The closing `delay(100)` changes no global; the time it lets pass is `elapse`. -/
def loop (toMillis : String → Nat) (MESTRE : Bool) (req : Option Request) (poll : Poll)
    (s : State) : State × Option Response :=
  let (s, resp) := handleClient toMillis req s
  let s := mirror MESTRE poll s
  let s := commit s
  (s, resp)

/-- Modelled from the spec: the passage of `dt` milliseconds as seen by the SDK timer,
which is not part of the sources. Every pending expiry that is due runs the callback
`desliga` once and is dropped (the timer is armed with `repeat = false`); the others
have `dt` less to run. The second component counts the callback runs. -/
def elapse (dt : Nat) (s : State) : State × Nat :=
  let due := s.tmr0.filter (fun d => decide (d ≤ dt))
  let rest := (s.tmr0.filter (fun d => decide (dt < d))).map (fun d => d - dt)
  (due.foldl (fun st _ => desliga st) { s with tmr0 := rest }, due.length)

/-- The states the program can be in once `setup` has completed: `loop` iterations,
each with any request and any poll outcome, interleaved with the passage of time. -/
inductive Reachable (toMillis : String → Nat) (MESTRE : Bool) : State → Prop
  | start (ip : String) (s : State) (h : setup true ip powerOn = .ok s) :
      Reachable toMillis MESTRE s
  | loop (s : State) (req : Option Request) (poll : Poll)
      (h : Reachable toMillis MESTRE s) :
      Reachable toMillis MESTRE (Interruptor.loop toMillis MESTRE req poll s).1
  | elapse (s : State) (dt : Nat) (h : Reachable toMillis MESTRE s) :
      Reachable toMillis MESTRE (Interruptor.elapse dt s).1

/-- A conversion for concrete evaluation: the value of the leading run of decimal
digits, as an unsigned 32-bit count; `0` when the text does not start with a digit.
On plain decimal texts and on texts without any numeric prefix this is what
`toDouble` followed by the conversion to `uint32_t` yields. -/
def decimalMillis (v : String) : Nat :=
  ((v.toList.takeWhile Char.isDigit).foldl (fun n c => 10 * n + (c.toNat - 48)) 0)
    % 4294967296

/-! Sample inputs -/

/-- A node whose relay is on, after setup. -/
def onState : State :=
  { relayStat := RELE_LIGADO, pinOutput := true, pinLevel := HIGH, tmr0 := [],
    tmr0Fn := true, serverOn := true, localIP := "192.168.0.100" }

/-- A node whose relay is off, after setup. -/
def offState : State :=
  { relayStat := RELE_DESLIGADO, pinOutput := true, pinLevel := LOW, tmr0 := [],
    tmr0Fn := true, serverOn := true, localIP := "192.168.0.100" }

/-- A poll in which `http.begin` fails. -/
def pollRefused : Poll := { beginOk := false, httpCode := 0, payload := "" }

/-- A poll answered `200` with the given body. -/
def pollOk (p : String) : Poll := { beginOk := true, httpCode := 200, payload := p }

/-- A `/sleep` request whose `time` argument is the text `v`. -/
def sleepRequest (v : String) : Request := { uri := "/sleep", args := [("time", v)] }

/-- A `/relay` request whose `do` argument is the text `v`. -/
def relayRequest (v : String) : Request := { uri := "/relay", args := [("do", v)] }

/-- The state in which `setup` leaves a node that connected with address
`192.168.0.100`. -/
def readyState : State :=
  { relayStat := RELE_DESLIGADO, pinOutput := true, pinLevel := HIGH, tmr0 := [],
    tmr0Fn := true, serverOn := true, localIP := "192.168.0.100" }

/-- Two requests to `sleep` served one right after the other, no time passing between
them: the state after the second. -/
def sleepTwice (toMillis : String → Nat) (r1 r2 : Request) (s : State) : State :=
  (sleep toMillis r2 (sleep toMillis r1 s).1).1

/-! Auxiliary facts -/

theorem arg_of_not_hasArg (r : Request) (name : String) (h : r.hasArg name = false) :
    r.arg name = "" := by
  unfold Request.hasArg at h
  unfold Request.arg
  have hnone : r.args.find? (fun kv => kv.1 == name) = none := by
    rw [List.find?_eq_none]
    intro kv hkv
    have := (List.any_eq_false.mp h) kv hkv
    simpa using this
  rw [hnone]

theorem getStatusMestre_state (MESTRE : Bool) (poll : Poll) (s : State) :
    (getStatusMestre MESTRE poll s).1 = s := by
  unfold getStatusMestre
  simp only []
  repeat' split
  all_goals rfl

theorem getStatusMestre_failure (poll : Poll) (s : State)
    (hfail : poll.beginOk = false ∨ poll.httpCode ≤ 0 ∨ poll.httpCode ≠ HTTP_CODE_OK) :
    (getStatusMestre false poll s).2 = false := by
  unfold getStatusMestre
  simp only []
  repeat' split
  all_goals first
    | rfl
    | (exfalso
       rcases hfail with h | h | h
       · simp_all
       · omega
       · exact h (by assumption))

theorem getStatusMestre_success (poll : Poll) (s : State)
    (hb : poll.beginOk = true) (hc : poll.httpCode = HTTP_CODE_OK) :
    (getStatusMestre false poll s).2 = decide (poll.payload = STATUS_ON_STR) := by
  unfold getStatusMestre
  simp [hb, hc, HTTP_CODE_OK]
  split <;> simp_all

theorem mirror_relayStat_slave (poll : Poll) (s : State) :
    (mirror false poll s).relayStat
      = if (getStatusMestre false poll s).2 then 1 else 0 := by
  simp [mirror]

theorem mirror_master (poll : Poll) (s : State) : mirror true poll s = s := by
  simp [mirror]

theorem commit_relayStat (s : State) : (commit s).relayStat = s.relayStat := by
  unfold commit
  split <;> rfl

theorem commit_tmr0 (s : State) : (commit s).tmr0 = s.tmr0 := by
  unfold commit
  split <;> rfl

theorem mirror_tmr0 (MESTRE : Bool) (poll : Poll) (s : State) :
    (mirror MESTRE poll s).tmr0 = s.tmr0 := by
  cases MESTRE
  · simp [mirror, getStatusMestre_state]
  · simp [mirror]

theorem mirror_pinLevel (MESTRE : Bool) (poll : Poll) (s : State) :
    (mirror MESTRE poll s).pinLevel = s.pinLevel := by
  cases MESTRE
  · simp [mirror, getStatusMestre_state]
  · simp [mirror]

theorem loop_state (toMillis : String → Nat) (MESTRE : Bool) (req : Option Request)
    (poll : Poll) (s : State) :
    (loop toMillis MESTRE req poll s).1
      = commit (mirror MESTRE poll (handleClient toMillis req s).1) := rfl

theorem foldl_desliga_tmr0 (l : List Nat) (s : State) :
    (l.foldl (fun st _ => desliga st) s).tmr0 = s.tmr0 := by
  induction l generalizing s with
  | nil => rfl
  | cons _ l ih =>
    rw [List.foldl_cons, ih]
    rfl

theorem foldl_desliga_pinLevel (l : List Nat) (s : State) :
    (l.foldl (fun st _ => desliga st) s).pinLevel = s.pinLevel := by
  induction l generalizing s with
  | nil => rfl
  | cons _ l ih =>
    rw [List.foldl_cons, ih]
    rfl

theorem foldl_desliga_relayStat (l : List Nat) (s : State) :
    (l.foldl (fun st _ => desliga st) s).relayStat
      = if l = [] then s.relayStat else RELE_DESLIGADO := by
  induction l generalizing s with
  | nil => rfl
  | cons _ l ih =>
    rw [List.foldl_cons, ih]
    by_cases hl : l = []
    · simp [hl, desliga]
    · simp [hl]

theorem elapse_tmr0 (dt : Nat) (s : State) :
    (elapse dt s).1.tmr0
      = (s.tmr0.filter (fun d => decide (dt < d))).map (fun d => d - dt) := by
  simp [elapse, foldl_desliga_tmr0]

theorem elapse_fired (dt : Nat) (s : State) :
    (elapse dt s).2 = (s.tmr0.filter (fun d => decide (d ≤ dt))).length := rfl

theorem elapse_tmr0_length_le (dt : Nat) (s : State) :
    (elapse dt s).1.tmr0.length ≤ s.tmr0.length := by
  rw [elapse_tmr0, List.length_map]
  exact List.length_filter_le _ _

theorem handleClient_tmr0_length (toMillis : String → Nat) (req : Option Request)
    (s : State) (h : s.tmr0.length ≤ 1) :
    (handleClient toMillis req s).1.tmr0.length ≤ 1 := by
  unfold handleClient
  cases req with
  | none => simpa using h
  | some r =>
    simp only []
    split_ifs
    · unfold relayControl
      simp only []
      split_ifs <;> simpa using h
    · unfold getStatus
      split_ifs <;> simpa using h
    · unfold sleep
      split_ifs
      · simp [os_timer_arm, os_timer_disarm]
      · simpa using h
    · simpa [handleWebRequests] using h

theorem reachable_tmr0_length (toMillis : String → Nat) (MESTRE : Bool) (s : State)
    (h : Reachable toMillis MESTRE s) : s.tmr0.length ≤ 1 := by
  induction h with
  | start ip s h =>
    simp [setup, powerOn] at h
    subst h
    simp
  | loop s req poll _ ih =>
    rw [loop_state, commit_tmr0, mirror_tmr0]
    exact handleClient_tmr0_length toMillis req s ih
  | elapse s dt _ ih =>
    exact le_trans (elapse_tmr0_length_le dt s) ih

theorem sleep_armed (toMillis : String → Nat) (req : Request) (s : State)
    (h : req.hasArg "time" = true) :
    sleep toMillis req s
      = ({ s with tmr0 := [toMillis (req.arg "time")] },
          { code := 200, contentType := "text/plain", body := "1" }) := by
  simp [sleep, h, os_timer_arm, os_timer_disarm]

/-! C1: a failed poll on a Slave -/

/-- C1, as stated, fails: on a Slave whose relay is on, an iteration of `loop` in which
`http.begin` returns false ends with `relayStat` off, not with the prior value. -/
theorem loop_slave_poll_failure_keeps_state_counterexample :
    (loop decimalMillis false none pollRefused onState).1.relayStat ≠ onState.relayStat := by
  decide

/-- C1, amended: on a Slave (`MESTRE = false`), for every prior state and whatever
request was served, if the poll of the Master fails (`http.begin` false, or a code
`≤ 0`, or a code other than 200) then `relayStat` is `RELE_DESLIGADO` after the
iteration of `loop`. -/
theorem loop_slave_poll_failure_off (toMillis : String → Nat) (req : Option Request)
    (poll : Poll) (s : State)
    (hfail : poll.beginOk = false ∨ poll.httpCode ≤ 0 ∨ poll.httpCode ≠ HTTP_CODE_OK) :
    (loop toMillis false req poll s).1.relayStat = RELE_DESLIGADO := by
  rw [loop_state, commit_relayStat, mirror_relayStat_slave,
    getStatusMestre_failure poll _ hfail]
  rfl

/-- C1, witness: a Slave whose relay is on, with the Master refusing the connection. -/
theorem loop_slave_poll_failure_off_witness :
    (loop decimalMillis false none pollRefused onState).1.relayStat = RELE_DESLIGADO :=
  loop_slave_poll_failure_off decimalMillis none pollRefused onState (Or.inl rfl)

/-! C2: `/sleep` with a `time` that is not a number -/

/-- C2, as stated, fails: for `time=abc` the endpoint does not reply "0" with the timer
left alone; it replies "1" and arms the timer. -/
theorem sleep_unparseable_rejected_counterexample :
    ¬ ((sleep decimalMillis (sleepRequest "abc") onState).2.body = "0" ∧
        (sleep decimalMillis (sleepRequest "abc") onState).1.tmr0 = onState.tmr0 ∧
        (sleep decimalMillis (sleepRequest "abc") onState).1.relayStat = onState.relayStat) := by
  decide

/-- C2, amended: for every request to `sleep` whose `time` argument is present but is
not a number, so that the conversion yields 0, the endpoint replies "1", the timer is
armed with that duration 0, and `relayStat` is unchanged. -/
theorem sleep_unparseable_arms_zero (toMillis : String → Nat) (req : Request) (s : State)
    (hpresent : req.hasArg "time" = true) (hzero : toMillis (req.arg "time") = 0) :
    (sleep toMillis req s).2 = { code := 200, contentType := "text/plain", body := "1" } ∧
    (sleep toMillis req s).1.tmr0 = [0] ∧
    (sleep toMillis req s).1.relayStat = s.relayStat := by
  rw [sleep_armed toMillis req s hpresent, hzero]
  exact ⟨rfl, rfl, rfl⟩

/-- C2, witness: the request `time=abc` served on a node whose relay is on. -/
theorem sleep_unparseable_arms_zero_witness :
    (sleep decimalMillis (sleepRequest "abc") onState).2
        = { code := 200, contentType := "text/plain", body := "1" } ∧
    (sleep decimalMillis (sleepRequest "abc") onState).1.tmr0 = [0] ∧
    (sleep decimalMillis (sleepRequest "abc") onState).1.relayStat = onState.relayStat :=
  sleep_unparseable_arms_zero decimalMillis (sleepRequest "abc") onState (by decide)
    (by decide)

/-! C3: `/relay` -/

/-- C3: for every prior state and every value of the `do` argument, `relayControl` sets
`relayStat` to ON and replies `{"status":"ON","IP":"<address>"}` when the value is
exactly "on"; otherwise, the argument being absent included, it sets OFF and replies
`{"status":"OFF","IP":"<address>"}`. The outcome does not depend on the prior relay
state, and serving the same command again changes nothing. -/
theorem relayControl_sets_state (req : Request) (s : State) :
    (req.arg "do" = "on" →
      relayControl req s =
        ({ s with relayStat := RELE_LIGADO },
          { code := 200, contentType := "application/json",
            body := "\x7b\"status\":\"ON\",\"IP\":\"" ++ s.localIP ++ "\"\x7d" })) ∧
    (req.arg "do" ≠ "on" →
      relayControl req s =
        ({ s with relayStat := RELE_DESLIGADO },
          { code := 200, contentType := "application/json",
            body := "\x7b\"status\":\"OFF\",\"IP\":\"" ++ s.localIP ++ "\"\x7d" })) ∧
    (req.hasArg "do" = false → (relayControl req s).1.relayStat = RELE_DESLIGADO) ∧
    (∀ r : Int, relayControl req { s with relayStat := r } = relayControl req s) ∧
    relayControl req (relayControl req s).1 = relayControl req s := by
  have hon : "\x7b\"status\":\"" ++ STATUS_ON_STR ++ "\"" ++ ",\"IP\":\""
      = "\x7b\"status\":\"ON\",\"IP\":\"" := by decide
  have hoff : "\x7b\"status\":\"" ++ STATUS_OFF_STR ++ "\"" ++ ",\"IP\":\""
      = "\x7b\"status\":\"OFF\",\"IP\":\"" := by decide
  refine ⟨?_, ?_, ?_, ?_, ?_⟩
  · intro h
    simp only [relayControl, h, if_true, hon]
  · intro h
    simp only [relayControl, h, if_false, hoff]
  · intro h
    have : req.arg "do" ≠ "on" := by
      rw [arg_of_not_hasArg req "do" h]
      decide
    simp only [relayControl, this, if_false]
  · intro r
    by_cases h : req.arg "do" = "on"
    · simp only [relayControl, h, if_true]
    · simp only [relayControl, h, if_false]
  · by_cases h : req.arg "do" = "on"
    · simp only [relayControl, h, if_true]
    · simp only [relayControl, h, if_false]

/-- C3, witness: `do=on` on a node that is off, `do=off` on a node that is on, and a request without `do`. -/
theorem relayControl_sets_state_witness :
    relayControl (relayRequest "on") offState =
      ({ offState with relayStat := RELE_LIGADO },
        { code := 200, contentType := "application/json",
          body := "\x7b\"status\":\"ON\",\"IP\":\"" ++ offState.localIP ++ "\"\x7d" }) ∧
    relayControl (relayRequest "off") onState =
      ({ onState with relayStat := RELE_DESLIGADO },
        { code := 200, contentType := "application/json",
          body := "\x7b\"status\":\"OFF\",\"IP\":\"" ++ onState.localIP ++ "\"\x7d" }) ∧
    (relayControl { uri := "/relay", args := [] } onState).1.relayStat = RELE_DESLIGADO :=
  ⟨(relayControl_sets_state (relayRequest "on") offState).1 (by decide),
   (relayControl_sets_state (relayRequest "off") onState).2.1 (by decide),
   (relayControl_sets_state { uri := "/relay", args := [] } onState).2.2.1 (by decide)⟩

/-! C4: a successful poll on a Slave -/

/-- C4: on a Slave, if the poll succeeds with code 200 and payload `p`, then after the
iteration of `loop` `relayStat` is ON when `p` is exactly "ON" and OFF for every other
payload. This holds from every state held just before the mirror step, hence whatever
the request served in the same iteration or the timer callback had set. -/
theorem loop_slave_poll_success (toMillis : String → Nat) (req : Option Request)
    (poll : Poll) (s : State)
    (hbegin : poll.beginOk = true) (hcode : poll.httpCode = HTTP_CODE_OK) :
    (poll.payload = "ON" →
      (commit (mirror false poll s)).relayStat = RELE_LIGADO ∧
      (loop toMillis false req poll s).1.relayStat = RELE_LIGADO ∧
      (loop toMillis false req poll (desliga s)).1.relayStat = RELE_LIGADO) ∧
    (poll.payload ≠ "ON" →
      (commit (mirror false poll s)).relayStat = RELE_DESLIGADO ∧
      (loop toMillis false req poll s).1.relayStat = RELE_DESLIGADO ∧
      (loop toMillis false req poll (desliga s)).1.relayStat = RELE_DESLIGADO) := by
  have key : ∀ s' : State, (commit (mirror false poll s')).relayStat
      = if poll.payload = "ON" then RELE_LIGADO else RELE_DESLIGADO := by
    intro s'
    rw [commit_relayStat, mirror_relayStat_slave, getStatusMestre_success poll s' hbegin hcode]
    by_cases h : poll.payload = "ON" <;> simp [h, STATUS_ON_STR, RELE_LIGADO, RELE_DESLIGADO]
  constructor
  · intro h
    simp only [loop_state, key, h, if_true, and_self]
  · intro h
    simp only [loop_state, key, h, if_false, and_self]

/-- C4, witness: the Master answers "ON" after a local `do=off`, and answers "on" after a local `do=on`. -/
theorem loop_slave_poll_success_witness :
    (loop decimalMillis false (some (relayRequest "off")) (pollOk "ON") onState).1.relayStat
        = RELE_LIGADO ∧
    (loop decimalMillis false (some (relayRequest "on")) (pollOk "on") offState).1.relayStat
        = RELE_DESLIGADO :=
  ⟨((loop_slave_poll_success decimalMillis (some (relayRequest "off")) (pollOk "ON")
      onState rfl rfl).1 rfl).2.1,
   ((loop_slave_poll_success decimalMillis (some (relayRequest "on")) (pollOk "on")
      offState rfl rfl).2 (by decide)).2.1⟩

/-! C5: `/getStatus` -/

/-- C5: for every relay state, `getStatus` replies with the plain-text body "ON" when
the relay state is ON and "OFF" when it is OFF, and leaves the whole state, `relayStat`
and the timer included, unchanged. -/
theorem getStatus_reports_state (s : State) :
    (s.relayStat = RELE_LIGADO →
      (getStatus s).2 = { code := 200, contentType := "text/plain", body := "ON" }) ∧
    (s.relayStat = RELE_DESLIGADO →
      (getStatus s).2 = { code := 200, contentType := "text/plain", body := "OFF" }) ∧
    (getStatus s).1 = s := by
  refine ⟨?_, ?_, ?_⟩
  · intro h
    simp [getStatus, h, RELE_LIGADO, RELE_DESLIGADO, STATUS_ON_STR]
  · intro h
    simp [getStatus, h, STATUS_OFF_STR]
  · unfold getStatus
    split <;> rfl

/-- C5, witness: the reply on a node that is on and on a node that is off. -/
theorem getStatus_reports_state_witness :
    (getStatus onState).2 = { code := 200, contentType := "text/plain", body := "ON" } ∧
    (getStatus offState).2 = { code := 200, contentType := "text/plain", body := "OFF" } :=
  ⟨(getStatus_reports_state onState).1 rfl, (getStatus_reports_state offState).2.1 rfl⟩

/-! C6: the timer callback, then `/getStatus` -/

/-- C6: for every state before expiry, once the timer callback `desliga` has run, a
following `getStatus` replies "OFF"; this is so for the callback itself and for every
passage of time in which an expiry fired. -/
theorem getStatus_after_desliga (s : State) :
    (getStatus (desliga s)).2 = { code := 200, contentType := "text/plain", body := "OFF" } ∧
    (∀ dt : Nat, 0 < (elapse dt s).2 →
      (getStatus (elapse dt s).1).2
        = { code := 200, contentType := "text/plain", body := "OFF" }) := by
  constructor
  · simp [getStatus, desliga, STATUS_OFF_STR]
  · intro dt hfired
    have hne : s.tmr0.filter (fun d => decide (d ≤ dt)) ≠ [] := by
      intro h
      rw [elapse_fired, h] at hfired
      simp at hfired
    have hoff : (elapse dt s).1.relayStat = RELE_DESLIGADO := by
      simp only [elapse, foldl_desliga_relayStat, hne, if_false]
    simp [getStatus, hoff, STATUS_OFF_STR]

/-- C6, witness: a timer with 50 ms to run, and 50 ms passing, on a node that is on. -/
theorem getStatus_after_desliga_witness :
    (getStatus (elapse 50 { onState with tmr0 := [50] }).1).2
      = { code := 200, contentType := "text/plain", body := "OFF" } :=
  (getStatus_after_desliga { onState with tmr0 := [50] }).2 50 (by decide)

/-! C7: `/sleep` without `time` -/

/-- C7: for every state, a request to `sleep` that carries no `time` argument replies
"0" and leaves `relayStat`, the timer and everything else as they were. -/
theorem sleep_without_time (toMillis : String → Nat) (req : Request) (s : State)
    (habsent : req.hasArg "time" = false) :
    sleep toMillis req s = (s, { code := 200, contentType := "text/plain", body := "0" }) := by
  simp [sleep, habsent]

/-- C7, witness: a request without arguments while a timer is pending. -/
theorem sleep_without_time_witness :
    sleep decimalMillis { uri := "/sleep", args := [] } { onState with tmr0 := [50] }
      = ({ onState with tmr0 := [50] },
          { code := 200, contentType := "text/plain", body := "0" }) :=
  sleep_without_time decimalMillis { uri := "/sleep", args := [] }
    { onState with tmr0 := [50] } (by decide)

/-! C8: the timer holds one pending expiry -/

/-- C8: the deferred-off timer has at most one pending expiry in every reachable state;
and for durations `D2 < D1`, serving `sleep` with `time = D1` and then at once with
`time = D2` leaves exactly one pending expiry, due after `D2`: nothing fires before `D2`
has passed, the callback `desliga` fires exactly once when it has (turning the relay
state off), and nothing is left to fire afterwards. -/
theorem tmr0_single_pending (toMillis : String → Nat) (MESTRE : Bool) (s : State)
    (hreach : Reachable toMillis MESTRE s) (r1 r2 : Request)
    (h1 : r1.hasArg "time" = true) (h2 : r2.hasArg "time" = true)
    (hlt : toMillis (r2.arg "time") < toMillis (r1.arg "time")) :
    s.tmr0.length ≤ 1 ∧
    (sleep toMillis r1 s).1.tmr0 = [toMillis (r1.arg "time")] ∧
    (sleepTwice toMillis r1 r2 s).tmr0 = [toMillis (r2.arg "time")] ∧
    (∀ dt : Nat, dt < toMillis (r2.arg "time") →
      (elapse dt (sleepTwice toMillis r1 r2 s)).2 = 0) ∧
    (∀ dt : Nat, toMillis (r2.arg "time") ≤ dt →
      (elapse dt (sleepTwice toMillis r1 r2 s)).2 = 1 ∧
      (elapse dt (sleepTwice toMillis r1 r2 s)).1.tmr0 = [] ∧
      (elapse dt (sleepTwice toMillis r1 r2 s)).1.relayStat = RELE_DESLIGADO ∧
      ∀ dt2 : Nat, (elapse dt2 (elapse dt (sleepTwice toMillis r1 r2 s)).1).2 = 0) := by
  have _hscenario := hlt
  have htwice : (sleepTwice toMillis r1 r2 s).tmr0 = [toMillis (r2.arg "time")] := by
    unfold sleepTwice
    rw [sleep_armed toMillis r2 _ h2]
  refine ⟨reachable_tmr0_length toMillis MESTRE s hreach, ?_, htwice, ?_, ?_⟩
  · rw [sleep_armed toMillis r1 s h1]
  · intro dt hdt
    rw [elapse_fired, htwice]
    simp [List.filter, Nat.not_le.mpr hdt]
  · intro dt hdt
    have hfired : (elapse dt (sleepTwice toMillis r1 r2 s)).2 = 1 := by
      rw [elapse_fired, htwice]
      simp [List.filter, hdt]
    have hempty : (elapse dt (sleepTwice toMillis r1 r2 s)).1.tmr0 = [] := by
      rw [elapse_tmr0, htwice]
      simp [List.filter, Nat.not_lt.mpr hdt]
    refine ⟨hfired, hempty, ?_, ?_⟩
    · have hne : (sleepTwice toMillis r1 r2 s).tmr0.filter (fun d => decide (d ≤ dt)) ≠ [] := by
        rw [htwice]
        simp [List.filter, hdt]
      simp only [elapse, foldl_desliga_relayStat, hne, if_false]
    · intro dt2
      rw [elapse_fired, hempty]
      rfl

/-- C8, witness: `time=5000` and then `time=50` right after setup. -/
theorem tmr0_single_pending_witness :
    readyState.tmr0.length ≤ 1 ∧
    (sleep decimalMillis (sleepRequest "5000") readyState).1.tmr0 = [5000] ∧
    (sleepTwice decimalMillis (sleepRequest "5000") (sleepRequest "50") readyState).tmr0
      = [50] ∧
    (elapse 49
      (sleepTwice decimalMillis (sleepRequest "5000") (sleepRequest "50") readyState)).2 = 0 ∧
    (elapse 5000
      (sleepTwice decimalMillis (sleepRequest "5000") (sleepRequest "50") readyState)).2 = 1 :=
  have h := tmr0_single_pending decimalMillis true readyState
    (Reachable.start "192.168.0.100" readyState rfl)
    (sleepRequest "5000") (sleepRequest "50") (by decide) (by decide) (by decide)
  ⟨h.1, h.2.1, h.2.2.1, h.2.2.2.1 49 (by decide), (h.2.2.2.2 5000 (by decide)).1⟩

/-! C9: who writes the relay pin -/

/-- C9, as stated, fails: `setup` writes the relay pin. Run from power-on, where the
pin is low, it leaves the pin high. -/
theorem setup_leaves_pin_counterexample :
    (stateOf (setup true "192.168.0.100" powerOn)).pinLevel ≠ powerOn.pinLevel := by
  decide

/-- C9, amended: the relay pin is written by the control loop and, once, by `setup`,
which drives it HIGH; every other operation of the program (`relayControl`,
`getStatus`, `sleep`, the timer callback `desliga`, `getStatusMestre`, the 404
handlers) leaves the level of the pin unchanged, and so do request servicing and the
mirror step inside `loop`, whose only write is the commit of `relayStat`. -/
theorem pin_written_by_setup_and_loop_only (toMillis : String → Nat) (MESTRE : Bool)
    (req : Request) (oreq : Option Request) (poll : Poll) (autoConnect : Bool) (ip : String)
    (dt : Nat) (s : State) :
    (relayControl req s).1.pinLevel = s.pinLevel ∧
    (getStatus s).1.pinLevel = s.pinLevel ∧
    (sleep toMillis req s).1.pinLevel = s.pinLevel ∧
    (desliga s).pinLevel = s.pinLevel ∧
    (getStatusMestre MESTRE poll s).1.pinLevel = s.pinLevel ∧
    (handleRoot s).1.pinLevel = s.pinLevel ∧
    (handleWebRequests s).1.pinLevel = s.pinLevel ∧
    (handleClient toMillis oreq s).1.pinLevel = s.pinLevel ∧
    (mirror MESTRE poll s).pinLevel = s.pinLevel ∧
    (elapse dt s).1.pinLevel = s.pinLevel ∧
    (stateOf (setup autoConnect ip s)).pinLevel = HIGH ∧
    (loop toMillis MESTRE oreq poll s).1.pinLevel
      = if (loop toMillis MESTRE oreq poll s).1.relayStat = RELE_DESLIGADO then LOW else HIGH := by
  have hrelay : ∀ r : Request, (relayControl r s).1.pinLevel = s.pinLevel := by
    intro r
    unfold relayControl
    simp only []
    split_ifs <;> rfl
  have hstatus : (getStatus s).1.pinLevel = s.pinLevel := by
    unfold getStatus
    split_ifs <;> rfl
  have hsleep : ∀ r : Request, (sleep toMillis r s).1.pinLevel = s.pinLevel := by
    intro r
    unfold sleep
    split_ifs <;> rfl
  have hcommit : ∀ s' : State,
      (commit s').pinLevel = if (commit s').relayStat = RELE_DESLIGADO then LOW else HIGH := by
    intro s'
    rw [commit_relayStat]
    unfold commit
    split_ifs <;> rfl
  refine ⟨hrelay req, hstatus, hsleep req, rfl, ?_, rfl, rfl, ?_, mirror_pinLevel MESTRE poll s,
    ?_, ?_, ?_⟩
  · rw [getStatusMestre_state]
  · unfold handleClient
    cases oreq with
    | none => rfl
    | some r =>
      simp only []
      split_ifs
      · exact hrelay r
      · exact hstatus
      · exact hsleep r
      · rfl
  · simp [elapse, foldl_desliga_pinLevel]
  · cases autoConnect <;> rfl
  · rw [loop_state]
    exact hcommit _

/-! C10: an idle iteration on a Master -/

/-- C10: on a Master (`MESTRE = true`), for every state, an iteration of `loop` in
which no request is served performs no mirror step: `relayStat` is afterwards what it
was, nothing but the pin level has changed, and the pin has been written LOW when the
relay state is OFF and HIGH when it is ON. -/
theorem loop_master_idle (toMillis : String → Nat) (poll : Poll) (s : State) :
    mirror true poll s = s ∧
    (loop toMillis true none poll s).1.relayStat = s.relayStat ∧
    (loop toMillis true none poll s).1
      = { s with pinLevel := (loop toMillis true none poll s).1.pinLevel } ∧
    (loop toMillis true none poll s).2 = none ∧
    (s.relayStat = RELE_DESLIGADO → (loop toMillis true none poll s).1.pinLevel = LOW) ∧
    (s.relayStat = RELE_LIGADO → (loop toMillis true none poll s).1.pinLevel = HIGH) := by
  have hloop : (loop toMillis true none poll s).1 = commit s := by
    rw [loop_state, mirror_master]
    rfl
  refine ⟨mirror_master poll s, ?_, ?_, rfl, ?_, ?_⟩
  · rw [hloop, commit_relayStat]
  · rw [hloop]
    unfold commit
    split_ifs <;> rfl
  · intro h
    rw [hloop]
    simp [commit, h]
  · intro h
    rw [hloop]
    simp [commit, h, RELE_LIGADO, RELE_DESLIGADO]

/-- C10, witness: an idle iteration on a Master that is off and on one that is on. -/
theorem loop_master_idle_witness :
    (loop decimalMillis true none pollRefused offState).1.pinLevel = LOW ∧
    (loop decimalMillis true none (pollOk "OFF") onState).1.pinLevel = HIGH :=
  ⟨(loop_master_idle decimalMillis pollRefused offState).2.2.2.2.1 rfl,
   (loop_master_idle decimalMillis (pollOk "OFF") onState).2.2.2.2.2 rfl⟩

end Interruptor
